import Mathlib

/-!
Verification of the Challenge Risk-Evaluation Engine of the TradeSense
trading-challenge platform (backend/flask_trading.py, backend/flask_models.py).

The embedding models Python floats as rationals (`ℚ`) and the mutable ORM
records as immutable structures; each endpoint's core logic becomes a pure
function returning `Except String` (an error result corresponds to the
endpoint returning an error response after rollback, so no record is created
or mutated). Python's `str.lower()` / `str.upper()` are modelled for ASCII
strings by `lowerString` / `upperString`.
-/

/-- ASCII model of Python `str.lower()` as used in the route handlers. -/
def lowerString (s : String) : String := String.mk (s.data.map Char.toLower)

/-- ASCII model of Python `str.upper()` as used in the route handlers. -/
def upperString (s : String) : String := String.mk (s.data.map Char.toUpper)

/-- One tier's configuration record from `TIER_CONFIG` (flask_trading.py lines 10-32). -/
structure TierPolicy where
  initial_balance : ℚ
  price : ℚ
  max_daily_loss_percent : ℚ
  max_total_loss_percent : ℚ
  profit_target_percent : ℚ
  deriving Repr, DecidableEq

/-- The `'starter'` entry of `TIER_CONFIG`. -/
def starterConfig : TierPolicy :=
  { initial_balance := 10000
    price := 99
    max_daily_loss_percent := 5
    max_total_loss_percent := 10
    profit_target_percent := 10 }

/-- The `'pro'` entry of `TIER_CONFIG`. -/
def proConfig : TierPolicy :=
  { initial_balance := 50000
    price := 299
    max_daily_loss_percent := 5
    max_total_loss_percent := 10
    profit_target_percent := 10 }

/-- The `'elite'` entry of `TIER_CONFIG`. -/
def eliteConfig : TierPolicy :=
  { initial_balance := 100000
    price := 599
    max_daily_loss_percent := 5
    max_total_loss_percent := 10
    profit_target_percent := 10 }

/-- The `TIER_CONFIG` dictionary as an association list (flask_trading.py lines 10-32). -/
def TIER_CONFIG : List (String × TierPolicy) :=
  [("starter", starterConfig), ("pro", proConfig), ("elite", eliteConfig)]

/-- Dictionary lookup `TIER_CONFIG[tier]` / membership test `tier in TIER_CONFIG`. -/
def lookupTier : String → Option TierPolicy
  | "starter" => some starterConfig
  | "pro" => some proConfig
  | "elite" => some eliteConfig
  | _ => none

/-- The `Challenge` model (flask_models.py lines 37-53), restricted to the fields
the risk-evaluation engine reads or writes.  `fail_reason` is a nullable column,
hence `Option String`; `status` defaults to `"active"` and `profit_percent` to `0`. -/
structure Challenge where
  tier : String
  initial_balance : ℚ
  current_balance : ℚ
  highest_balance : ℚ
  daily_start_balance : ℚ
  status : String
  fail_reason : Option String
  profit_percent : ℚ
  payment_method : Option String
  amount_paid : ℚ
  deriving Repr, DecidableEq

/-- The `Trade` model (flask_models.py lines 77-91), restricted to the fields the
engine reads or writes.  `exit_price` and `profit_loss` are nullable columns set
on close; `status` defaults to `"open"`. -/
structure Trade where
  symbol : String
  type : String
  quantity : ℚ
  entry_price : ℚ
  exit_price : Option ℚ
  profit_loss : Option ℚ
  status : String
  deriving Repr, DecidableEq

/-- Core of `create_challenge` (flask_trading.py lines 37-76): lowercase the
requested tier, reject it unless it is a `TIER_CONFIG` key, otherwise build the
challenge with every balance field equal to the tier's initial balance and the
model defaults `status = "active"`, `fail_reason = None`, `profit_percent = 0`. -/
def create_challenge (tier_raw : String) (payment_method : Option String) :
    Except String Challenge :=
  let tier := lowerString tier_raw
  match lookupTier tier with
  | none => .error "Invalid tier. Must be starter, pro, or elite"
  | some config =>
      .ok { tier := tier
            initial_balance := config.initial_balance
            current_balance := config.initial_balance
            highest_balance := config.initial_balance
            daily_start_balance := config.initial_balance
            status := "active"
            fail_reason := none
            profit_percent := 0
            payment_method := payment_method
            amount_paid := config.price }

/-- Core of `execute_trade` (flask_trading.py lines 119-170): validation in
source order (trade type, then quantity/price positivity, then challenge
active, then sufficient balance), and on success the new open trade record.
An error result models the endpoint returning 400 with no trade row created
and the challenge untouched. -/
def execute_trade (challenge : Challenge) (symbol_raw trade_type_raw : String)
    (quantity entry_price : ℚ) : Except String Trade :=
  let trade_type := lowerString trade_type_raw
  if trade_type ≠ "buy" ∧ trade_type ≠ "sell" then
    .error "Trade type must be buy or sell"
  else if quantity ≤ 0 ∨ entry_price ≤ 0 then
    .error "Invalid quantity or price"
  else if challenge.status ≠ "active" then
    .error "Challenge is not active"
  else if quantity * entry_price > challenge.current_balance then
    .error "Insufficient balance"
  else
    .ok { symbol := upperString symbol_raw
          type := trade_type
          quantity := quantity
          entry_price := entry_price
          exit_price := none
          profit_loss := none
          status := "open" }

/-- Realized profit/loss of `close_trade` (flask_trading.py lines 199-202):
`(exit - entry) * quantity` for a buy, `(entry - exit) * quantity` otherwise. -/
def tradePnl (trade : Trade) (exit_price : ℚ) : ℚ :=
  if trade.type = "buy" then (exit_price - trade.entry_price) * trade.quantity
  else (trade.entry_price - exit_price) * trade.quantity

/-- The trade-record update of `close_trade` (flask_trading.py lines 204-207). -/
def settleTrade (trade : Trade) (exit_price : ℚ) : Trade :=
  { trade with
    exit_price := some exit_price
    profit_loss := some (tradePnl trade exit_price)
    status := "closed" }

/-- The f-string `f'Exceeded {percent}% daily loss limit'` (flask_trading.py line 226). -/
def dailyLossReason (percent : ℚ) : String :=
  "Exceeded " ++ toString percent ++ "% daily loss limit"

/-- The f-string `f'Exceeded {percent}% total loss limit'` (flask_trading.py line 234). -/
def totalLossReason (percent : ℚ) : String :=
  "Exceeded " ++ toString percent ++ "% total loss limit"

/-- The challenge update of `close_trade` (flask_trading.py lines 209-238):
apply the realized pnl to the balance, track the highest balance, recompute
`profit_percent`, then run the three rule checks in source order — daily loss,
total loss, profit target — each `if` assigning `status` (and, for the two loss
checks, `fail_reason`) unconditionally when its condition holds. -/
def evaluate (challenge : Challenge) (profit_loss : ℚ) (config : TierPolicy) :
    Challenge :=
  let current_balance := challenge.current_balance + profit_loss
  let highest_balance := max challenge.highest_balance current_balance
  let profit_percent :=
    (current_balance - challenge.initial_balance) / challenge.initial_balance * 100
  let daily_loss := challenge.daily_start_balance - current_balance
  let max_daily_loss :=
    challenge.daily_start_balance * (config.max_daily_loss_percent / 100)
  let status1 := if daily_loss ≥ max_daily_loss then "failed" else challenge.status
  let reason1 :=
    if daily_loss ≥ max_daily_loss then some (dailyLossReason config.max_daily_loss_percent)
    else challenge.fail_reason
  let total_loss := challenge.initial_balance - current_balance
  let max_total_loss :=
    challenge.initial_balance * (config.max_total_loss_percent / 100)
  let status2 := if total_loss ≥ max_total_loss then "failed" else status1
  let reason2 :=
    if total_loss ≥ max_total_loss then some (totalLossReason config.max_total_loss_percent)
    else reason1
  let status3 :=
    if profit_percent ≥ config.profit_target_percent then "passed" else status2
  { challenge with
    current_balance := current_balance
    highest_balance := highest_balance
    profit_percent := profit_percent
    status := status3
    fail_reason := reason2 }

/-- Core of `close_trade` (flask_trading.py lines 179-250): reject a
non-positive exit price, then a trade that is not open; otherwise settle the
trade and run the risk evaluation on its challenge.  The tier lookup
`TIER_CONFIG[challenge.tier]` raises `KeyError` for an unknown tier, which the
handler turns into a rollback plus error response, modelled as the `none`
branch.  Note the function never inspects `challenge.status`. -/
def close_trade (trade : Trade) (challenge : Challenge) (exit_price : ℚ) :
    Except String (Trade × Challenge) :=
  if exit_price ≤ 0 then .error "Invalid exit price"
  else if trade.status ≠ "open" then .error "Trade is already closed"
  else
    match lookupTier challenge.tier with
    | none => .error "Unknown tier"
    | some config =>
        .ok (settleTrade trade exit_price, evaluate challenge (tradePnl trade exit_price) config)

/-- State-passing wrapper for one `close_trade` request: on success the new
trade/challenge pair, on error the unchanged pair together with the error
message (the handler rolls back, so an error leaves the database untouched). -/
def closeTradeRun (trade : Trade) (challenge : Challenge) (exit_price : ℚ) :
    (Trade × Challenge) × Option String :=
  match close_trade trade challenge exit_price with
  | .ok tc => (tc, none)
  | .error msg => ((trade, challenge), some msg)

/-- Two consecutive `close_trade` requests against the same trade id. -/
def closeTwice (trade : Trade) (challenge : Challenge) (e₁ e₂ : ℚ) :
    (Trade × Challenge) × Option String :=
  let r₁ := closeTradeRun trade challenge e₁
  closeTradeRun r₁.1.1 r₁.1.2 e₂

/-- The challenge state after one `close_trade` request (unchanged on error). -/
def applySettlement (challenge : Challenge) (trade : Trade) (exit_price : ℚ) :
    Challenge :=
  match close_trade trade challenge exit_price with
  | .ok tc => tc.2
  | .error _ => challenge

/-- The challenge state after a sequence of `close_trade` requests. -/
def applySettlements (challenge : Challenge) (settlements : List (Trade × ℚ)) :
    Challenge :=
  settlements.foldl (fun c s => applySettlement c s.1 s.2) challenge

/-- Whether a `close_trade` request succeeds (settles the trade). -/
def settlementSucceeds (trade : Trade) (challenge : Challenge) (exit_price : ℚ) :
    Bool :=
  match close_trade trade challenge exit_price with
  | .ok _ => true
  | .error _ => false

/-! ### Sample records used in concrete theorems -/

/-- An open buy trade: 10 units entered at 100. -/
def openBuyTrade : Trade :=
  { symbol := "AAPL", type := "buy", quantity := 10, entry_price := 100,
    exit_price := none, profit_loss := none, status := "open" }

/-- An open sell trade: 10 units entered at 100. -/
def openSellTrade : Trade :=
  { symbol := "EURUSD", type := "sell", quantity := 10, entry_price := 100,
    exit_price := none, profit_loss := none, status := "open" }

/-- A freshly created starter-tier challenge. -/
def chStarter : Challenge :=
  { tier := "starter", initial_balance := 10000, current_balance := 10000,
    highest_balance := 10000, daily_start_balance := 10000, status := "active",
    fail_reason := none, profit_percent := 0, payment_method := some "paypal",
    amount_paid := 99 }

/-- A starter challenge that already failed the daily-loss rule. -/
def chFailedStarter : Challenge :=
  { chStarter with status := "failed", fail_reason := some (dailyLossReason 5) }

/-- A starter challenge whose trading day started at 20000 and whose balance is
down to 10900: one more profitable settlement can cross the profit target while
still breaching the daily-loss limit. -/
def chNearTarget : Challenge :=
  { chStarter with
    current_balance := 10900
    highest_balance := 20000
    daily_start_balance := 20000
    profit_percent := 9 }

/-- A starter challenge down from a 20000 day start to 11000. -/
def chHighDayStart : Challenge :=
  { chStarter with
    current_balance := 11000
    highest_balance := 20000
    daily_start_balance := 20000
    profit_percent := 10 }

/-! ### Helper lemmas about the embedding -/

theorem lookupTier_cases {s : String} {cfg : TierPolicy}
    (h : lookupTier s = some cfg) :
    cfg = starterConfig ∨ cfg = proConfig ∨ cfg = eliteConfig := by
  unfold lookupTier at h
  split at h <;> simp_all

theorem lookupTier_percents {s : String} {cfg : TierPolicy}
    (h : lookupTier s = some cfg) :
    cfg.max_daily_loss_percent = 5 ∧ cfg.max_total_loss_percent = 10 ∧
      cfg.profit_target_percent = 10 := by
  rcases lookupTier_cases h with h | h | h <;> subst h <;> exact ⟨rfl, rfl, rfl⟩

theorem close_trade_eq {t : Trade} {c : Challenge} {e : ℚ} {cfg : TierPolicy}
    (ht : t.status = "open") (he : 0 < e) (hcfg : lookupTier c.tier = some cfg) :
    close_trade t c e = .ok (settleTrade t e, evaluate c (tradePnl t e) cfg) := by
  unfold close_trade
  rw [if_neg (not_le.mpr he), if_neg (by simp [ht]), hcfg]

theorem close_trade_ok_inv {t t' : Trade} {c c' : Challenge} {e : ℚ}
    (h : close_trade t c e = .ok (t', c')) :
    ∃ cfg, lookupTier c.tier = some cfg ∧ t' = settleTrade t e ∧
      c' = evaluate c (tradePnl t e) cfg := by
  unfold close_trade at h
  split_ifs at h
  cases hl : lookupTier c.tier with
  | none => rw [hl] at h; cases h
  | some cfg =>
      rw [hl] at h
      cases h
      exact ⟨cfg, rfl, rfl, rfl⟩

theorem closeTradeRun_eq {t : Trade} {c : Challenge} {e : ℚ} {cfg : TierPolicy}
    (ht : t.status = "open") (he : 0 < e) (hcfg : lookupTier c.tier = some cfg) :
    closeTradeRun t c e = ((settleTrade t e, evaluate c (tradePnl t e) cfg), none) := by
  unfold closeTradeRun
  rw [close_trade_eq ht he hcfg]

theorem applySettlement_ok {t : Trade} {c : Challenge} {e : ℚ}
    {tc : Trade × Challenge} (h : close_trade t c e = .ok tc) :
    applySettlement c t e = tc.2 := by
  unfold applySettlement
  rw [h]

theorem applySettlement_error {t : Trade} {c : Challenge} {e : ℚ} {msg : String}
    (h : close_trade t c e = .error msg) : applySettlement c t e = c := by
  unfold applySettlement
  rw [h]

theorem applySettlement_eq {t : Trade} {c : Challenge} {e : ℚ} {cfg : TierPolicy}
    (ht : t.status = "open") (he : 0 < e) (hcfg : lookupTier c.tier = some cfg) :
    applySettlement c t e = evaluate c (tradePnl t e) cfg := by
  unfold applySettlement
  rw [close_trade_eq ht he hcfg]

theorem evaluate_current_balance (c : Challenge) (pnl : ℚ) (cfg : TierPolicy) :
    (evaluate c pnl cfg).current_balance = c.current_balance + pnl := rfl

theorem evaluate_highest_balance (c : Challenge) (pnl : ℚ) (cfg : TierPolicy) :
    (evaluate c pnl cfg).highest_balance =
      max c.highest_balance (c.current_balance + pnl) := rfl

theorem evaluate_profit_percent (c : Challenge) (pnl : ℚ) (cfg : TierPolicy) :
    (evaluate c pnl cfg).profit_percent =
      (c.current_balance + pnl - c.initial_balance) / c.initial_balance * 100 := rfl

theorem evaluate_status (c : Challenge) (pnl : ℚ) (cfg : TierPolicy) :
    (evaluate c pnl cfg).status =
      if (c.current_balance + pnl - c.initial_balance) / c.initial_balance * 100 ≥
          cfg.profit_target_percent then "passed"
      else if c.initial_balance - (c.current_balance + pnl) ≥
          c.initial_balance * (cfg.max_total_loss_percent / 100) then "failed"
      else if c.daily_start_balance - (c.current_balance + pnl) ≥
          c.daily_start_balance * (cfg.max_daily_loss_percent / 100) then "failed"
      else c.status := rfl

theorem evaluate_fail_reason (c : Challenge) (pnl : ℚ) (cfg : TierPolicy) :
    (evaluate c pnl cfg).fail_reason =
      if c.initial_balance - (c.current_balance + pnl) ≥
          c.initial_balance * (cfg.max_total_loss_percent / 100) then
        some (totalLossReason cfg.max_total_loss_percent)
      else if c.daily_start_balance - (c.current_balance + pnl) ≥
          c.daily_start_balance * (cfg.max_daily_loss_percent / 100) then
        some (dailyLossReason cfg.max_daily_loss_percent)
      else c.fail_reason := rfl

/-! ### Claim theorems -/

/-- Claim C1: in `close_trade`'s risk evaluation the profit-target check runs
unconditionally after both loss checks, so whenever the post-settlement
`profit_percent` reaches the tier's `profit_target_percent`, the challenge's
final status is `"passed"` — even if the daily-loss or total-loss check just
set it to `"failed"`. -/
theorem profit_target_overrides_loss (t : Trade) (c : Challenge) (e : ℚ)
    (cfg : TierPolicy) (hcfg : lookupTier c.tier = some cfg)
    (ht : t.status = "open") (he : 0 < e)
    (hpt : cfg.profit_target_percent ≤ (closeTradeRun t c e).1.2.profit_percent) :
    (closeTradeRun t c e).1.2.status = "passed" := by
  rw [closeTradeRun_eq ht he hcfg] at hpt ⊢
  rw [evaluate_profit_percent] at hpt
  rw [evaluate_status, if_pos hpt]

/-- Witness for C1: closing `openBuyTrade` at 130 on `chNearTarget` realizes
+300, bringing the balance to 11200 (profit 12% ≥ 10%), while the day's
drawdown 20000 → 11200 simultaneously breaches the 5% daily-loss limit; the
final status is still `"passed"`. -/
theorem profit_target_overrides_loss_witness :
    (closeTradeRun openBuyTrade chNearTarget 130).1.2.status = "passed" :=
  profit_target_overrides_loss openBuyTrade chNearTarget 130 starterConfig
    (by decide) rfl (by decide)
    (by have hcfg : lookupTier chNearTarget.tier = some starterConfig := by decide
        rw [closeTradeRun_eq rfl (by decide) hcfg, evaluate_profit_percent]
        norm_num [chNearTarget, chStarter, openBuyTrade, tradePnl, starterConfig])

/-- Claim C2, counterexample: `chFailedStarter` has terminal status `"failed"`,
yet settling the still-open `openBuyTrade` at exit price 110 changes its
`current_balance` (10000 → 10100), so a terminal challenge is in fact mutated
by a subsequent settlement. -/
theorem terminal_status_counterexample :
    (applySettlement chFailedStarter openBuyTrade 110).current_balance ≠
      chFailedStarter.current_balance := by
  have hcfg : lookupTier chFailedStarter.tier = some starterConfig := by decide
  rw [applySettlement_eq rfl (by decide) hcfg, evaluate_current_balance]
  norm_num [chFailedStarter, chStarter, openBuyTrade, tradePnl]

/-- Claim C2 (amended): the terminal-status invariant does not hold —
`close_trade` never inspects `challenge.status`, so a settlement on a
still-open trade of a challenge whose status is `"passed"` or `"failed"`
proceeds exactly as for an active challenge: it succeeds and updates
`current_balance` by the realized pnl (with `highest_balance`,
`profit_percent`, `status` and `fail_reason` recomputed by the evaluator). -/
theorem terminal_status_not_enforced (c : Challenge) (t : Trade) (e : ℚ)
    (cfg : TierPolicy) (_hterm : c.status = "passed" ∨ c.status = "failed")
    (ht : t.status = "open") (he : 0 < e) (hcfg : lookupTier c.tier = some cfg) :
    closeTradeRun t c e = ((settleTrade t e, evaluate c (tradePnl t e) cfg), none) ∧
      (closeTradeRun t c e).1.2.current_balance = c.current_balance + tradePnl t e := by
  have h := closeTradeRun_eq ht he hcfg
  exact ⟨h, by rw [h, evaluate_current_balance]⟩

/-- Witness for the amended C2 at the counterexample's input. -/
theorem terminal_status_not_enforced_witness :
    closeTradeRun openBuyTrade chFailedStarter 110 =
      ((settleTrade openBuyTrade 110,
        evaluate chFailedStarter (tradePnl openBuyTrade 110) starterConfig), none) ∧
      (closeTradeRun openBuyTrade chFailedStarter 110).1.2.current_balance =
        chFailedStarter.current_balance + tradePnl openBuyTrade 110 :=
  terminal_status_not_enforced chFailedStarter openBuyTrade 110 starterConfig
    (Or.inr rfl) rfl (by decide) (by decide)

/-- Claim C3: daily-loss boundary is inclusive.  On the fresh starter challenge
(initial = daily start = 10000), closing `openBuyTrade` at 50 realizes exactly
-500 = 5% of the daily start balance, and the challenge ends `"failed"` with
the reason string `"Exceeded 5% daily loss limit"`. -/
theorem daily_loss_boundary :
    tradePnl openBuyTrade 50 = -500 ∧
    (applySettlement chStarter openBuyTrade 50).status = "failed" ∧
    (applySettlement chStarter openBuyTrade 50).fail_reason =
      some "Exceeded 5% daily loss limit" := by
  have hpnl : tradePnl openBuyTrade 50 = -500 := by
    norm_num [tradePnl, openBuyTrade]
  have hcfg : lookupTier chStarter.tier = some starterConfig := by decide
  have happ : applySettlement chStarter openBuyTrade 50 =
      evaluate chStarter (tradePnl openBuyTrade 50) starterConfig :=
    applySettlement_eq rfl (by decide) hcfg
  refine ⟨hpnl, ?_, ?_⟩
  · rw [happ, evaluate_status, hpnl]
    norm_num [chStarter, starterConfig]
  · rw [happ, evaluate_fail_reason, hpnl]
    rw [if_neg (by norm_num [chStarter, starterConfig]),
        if_pos (by norm_num [chStarter, starterConfig])]
    decide

/-- Claim C4: the total-loss check runs after the daily-loss check.  For any
challenge of a configured tier with a positive initial balance, whenever the
post-settlement total loss `initial_balance - current_balance` reaches
`initial_balance * max_total_loss_percent / 100`, the evaluator ends with
status `"failed"` and fail_reason `"Exceeded 10% total loss limit"` — in
particular, when the daily-loss check also fired, the total-loss reason
overwrites the daily-loss reason. -/
theorem total_loss_check (c : Challenge) (pnl : ℚ) (cfg : TierPolicy)
    (hcfg : lookupTier c.tier = some cfg) (hib : 0 < c.initial_balance)
    (htl : c.initial_balance - (c.current_balance + pnl) ≥
      c.initial_balance * (cfg.max_total_loss_percent / 100)) :
    (evaluate c pnl cfg).status = "failed" ∧
      (evaluate c pnl cfg).fail_reason =
        some (totalLossReason cfg.max_total_loss_percent) := by
  obtain ⟨hd, hm, hp⟩ := lookupTier_percents hcfg
  have htl' := htl
  rw [hm] at htl'
  have hpp : ¬ ((c.current_balance + pnl - c.initial_balance) / c.initial_balance * 100 ≥
      cfg.profit_target_percent) := by
    rw [hp, ge_iff_le, not_le, div_mul_eq_mul_div, div_lt_iff₀ hib]
    linarith
  constructor
  · rw [evaluate_status, if_neg hpp, if_pos htl]
  · rw [evaluate_fail_reason, if_pos htl]

/-- Witness for C4: a fresh starter challenge settling a -1000 pnl reaches
balance 9000, breaching both the 5% daily-loss limit (loss 1000 ≥ 500) and the
10% total-loss limit (loss 1000 ≥ 1000); the final reason is the total-loss
one. -/
theorem total_loss_check_witness :
    (evaluate chStarter (-1000) starterConfig).status = "failed" ∧
      (evaluate chStarter (-1000) starterConfig).fail_reason =
        some (totalLossReason starterConfig.max_total_loss_percent) :=
  total_loss_check chStarter (-1000) starterConfig (by decide)
    (by norm_num [chStarter]) (by norm_num [chStarter, starterConfig])

/-- Claim C5: P/L sign correctness.  Settling any open buy trade records
`profit_loss = (exit - entry) * quantity` and any open sell trade records
`profit_loss = (entry - exit) * quantity`; concretely, buy entry 100 exit 110
qty 10 gives +100, sell entry 100 exit 90 qty 10 gives +100, and sell entry 100
exit 110 qty 10 gives -100. -/
theorem pnl_sign_correctness :
    (∀ (t : Trade) (c : Challenge) (e : ℚ) (cfg : TierPolicy),
        lookupTier c.tier = some cfg → t.status = "open" → 0 < e →
        t.type = "buy" →
        (closeTradeRun t c e).1.1.profit_loss =
          some ((e - t.entry_price) * t.quantity)) ∧
    (∀ (t : Trade) (c : Challenge) (e : ℚ) (cfg : TierPolicy),
        lookupTier c.tier = some cfg → t.status = "open" → 0 < e →
        t.type = "sell" →
        (closeTradeRun t c e).1.1.profit_loss =
          some ((t.entry_price - e) * t.quantity)) ∧
    tradePnl openBuyTrade 110 = 100 ∧
    tradePnl openSellTrade 90 = 100 ∧
    tradePnl openSellTrade 110 = -100 := by
  refine ⟨?_, ?_, by norm_num [tradePnl, openBuyTrade],
    by unfold tradePnl; rw [if_neg (by decide)]; norm_num [openSellTrade],
    by unfold tradePnl; rw [if_neg (by decide)]; norm_num [openSellTrade]⟩
  · intro t c e cfg hcfg ht he hbuy
    rw [closeTradeRun_eq ht he hcfg]
    show some (tradePnl t e) = _
    unfold tradePnl
    rw [if_pos hbuy]
  · intro t c e cfg hcfg ht he hsell
    rw [closeTradeRun_eq ht he hcfg]
    show some (tradePnl t e) = _
    unfold tradePnl
    rw [if_neg (by rw [hsell]; decide)]

/-- Witness for C5: the general buy and sell clauses applied to the concrete
open trades on the fresh starter challenge. -/
theorem pnl_sign_correctness_witness :
    (closeTradeRun openBuyTrade chStarter 110).1.1.profit_loss =
      some ((110 - openBuyTrade.entry_price) * openBuyTrade.quantity) ∧
    (closeTradeRun openSellTrade chStarter 90).1.1.profit_loss =
      some ((openSellTrade.entry_price - 90) * openSellTrade.quantity) :=
  ⟨pnl_sign_correctness.1 openBuyTrade chStarter 110 starterConfig
      (by decide) rfl (by decide) rfl,
   pnl_sign_correctness.2.1 openSellTrade chStarter 90 starterConfig
      (by decide) rfl (by decide) rfl⟩

/-- One settlement never lowers `highest_balance`. -/
theorem applySettlement_highest_mono (c : Challenge) (t : Trade) (e : ℚ) :
    c.highest_balance ≤ (applySettlement c t e).highest_balance := by
  cases h : close_trade t c e with
  | error msg => rw [applySettlement_error h]
  | ok tc =>
      rw [applySettlement_ok h]
      have h2 : close_trade t c e = .ok (tc.1, tc.2) := by rw [h]
      obtain ⟨cfg, hcfg, ht', hc'⟩ := close_trade_ok_inv h2
      rw [hc', evaluate_highest_balance]
      exact le_max_left _ _

/-- Claim C6: `highest_balance` invariant — over any sequence of settlements it
never decreases, and after every successful settlement it dominates
`current_balance`. -/
theorem highest_balance_invariant :
    (∀ (c : Challenge) (l : List (Trade × ℚ)),
        c.highest_balance ≤ (applySettlements c l).highest_balance) ∧
    (∀ (t : Trade) (c : Challenge) (e : ℚ), settlementSucceeds t c e = true →
        (applySettlement c t e).current_balance ≤
          (applySettlement c t e).highest_balance) := by
  constructor
  · intro c l
    induction l generalizing c with
    | nil => exact le_refl _
    | cons s l ih =>
        calc c.highest_balance
            ≤ (applySettlement c s.1 s.2).highest_balance :=
              applySettlement_highest_mono c s.1 s.2
          _ ≤ (applySettlements (applySettlement c s.1 s.2) l).highest_balance :=
              ih (applySettlement c s.1 s.2)
  · intro t c e hs
    unfold settlementSucceeds at hs
    cases h : close_trade t c e with
    | error msg => rw [h] at hs; cases hs
    | ok tc =>
        rw [applySettlement_ok h]
        have h2 : close_trade t c e = .ok (tc.1, tc.2) := by rw [h]
        obtain ⟨cfg, hcfg, ht', hc'⟩ := close_trade_ok_inv h2
        rw [hc', evaluate_current_balance, evaluate_highest_balance]
        exact le_max_right _ _

/-- Witness for C6: one settlement of `openBuyTrade` at 110 on the fresh
starter challenge. -/
theorem highest_balance_invariant_witness :
    chStarter.highest_balance ≤
      (applySettlements chStarter [(openBuyTrade, 110)]).highest_balance ∧
    (applySettlement chStarter openBuyTrade 110).current_balance ≤
      (applySettlement chStarter openBuyTrade 110).highest_balance :=
  ⟨highest_balance_invariant.1 chStarter [(openBuyTrade, 110)],
   highest_balance_invariant.2 openBuyTrade chStarter 110 (by decide)⟩

/-- Claim C7: `create_challenge` postcondition.  For every tier whose
normalized name is configured — in particular starter, pro and elite — the
returned challenge has all four balance fields equal to the tier's configured
initial balance and status `"active"`; for every tier whose normalized name is
not configured the call fails with the unknown-tier error and no challenge is
produced. -/
theorem create_challenge_spec :
    (∀ (tier : String) (pm : Option String) (cfg : TierPolicy),
        lookupTier (lowerString tier) = some cfg →
        create_challenge tier pm = .ok
          { tier := lowerString tier
            initial_balance := cfg.initial_balance
            current_balance := cfg.initial_balance
            highest_balance := cfg.initial_balance
            daily_start_balance := cfg.initial_balance
            status := "active"
            fail_reason := none
            profit_percent := 0
            payment_method := pm
            amount_paid := cfg.price }) ∧
    (∀ (tier : String) (pm : Option String),
        lookupTier (lowerString tier) = none →
        create_challenge tier pm =
          .error "Invalid tier. Must be starter, pro, or elite") := by
  constructor
  · intro tier pm cfg h
    simp only [create_challenge]
    rw [h]
  · intro tier pm h
    simp only [create_challenge]
    rw [h]

/-- Witness for C7: the starter tier succeeds with all balances at 10000, and
the unconfigured tier name "gold" is rejected. -/
theorem create_challenge_spec_witness :
    create_challenge "starter" (some "cmi") = .ok
      { tier := lowerString "starter"
        initial_balance := starterConfig.initial_balance
        current_balance := starterConfig.initial_balance
        highest_balance := starterConfig.initial_balance
        daily_start_balance := starterConfig.initial_balance
        status := "active"
        fail_reason := none
        profit_percent := 0
        payment_method := some "cmi"
        amount_paid := starterConfig.price } ∧
    create_challenge "gold" none =
      .error "Invalid tier. Must be starter, pro, or elite" :=
  ⟨create_challenge_spec.1 "starter" (some "cmi") starterConfig (by decide),
   create_challenge_spec.2 "gold" none (by decide)⟩

/-- A non-positive exit price is rejected first (flask_trading.py lines 186-187). -/
theorem close_trade_invalid_price (t : Trade) (c : Challenge) (e : ℚ)
    (h : e ≤ 0) : close_trade t c e = .error "Invalid exit price" := by
  unfold close_trade
  rw [if_pos h]

/-- A trade that is not open is rejected (flask_trading.py lines 195-196). -/
theorem close_trade_already_closed (t : Trade) (c : Challenge) (e : ℚ)
    (he : 0 < e) (h : t.status ≠ "open") :
    close_trade t c e = .error "Trade is already closed" := by
  unfold close_trade
  rw [if_neg (not_le.mpr he), if_pos h]

/-- Two closes of the same trade: the first settles it, the second fails with
the already-closed error and leaves the state of the first untouched. -/
theorem closeTwice_spec (t : Trade) (c : Challenge) (e₁ e₂ : ℚ)
    (cfg : TierPolicy) (ht : t.status = "open") (he₁ : 0 < e₁) (he₂ : 0 < e₂)
    (hcfg : lookupTier c.tier = some cfg) :
    closeTwice t c e₁ e₂ =
      ((settleTrade t e₁, evaluate c (tradePnl t e₁) cfg),
        some "Trade is already closed") := by
  show closeTradeRun (closeTradeRun t c e₁).1.1 (closeTradeRun t c e₁).1.2 e₂ = _
  rw [closeTradeRun_eq ht he₁ hcfg]
  show closeTradeRun (settleTrade t e₁) (evaluate c (tradePnl t e₁) cfg) e₂ = _
  unfold closeTradeRun
  rw [close_trade_already_closed (settleTrade t e₁)
    (evaluate c (tradePnl t e₁) cfg) e₂ he₂
    (by show ("closed" : String) ≠ "open"; decide)]

/-- Claim C8: `close_trade` error handling and second-call atomicity — a
non-positive exit price yields the invalid-exit-price error; a trade whose
status is not `"open"` yields the already-closed error; and a second
`close_trade` on the same trade id (with a valid exit price) yields the
already-closed error while leaving both the trade and the challenge exactly as
the first call left them. -/
theorem close_trade_errors :
    (∀ (t : Trade) (c : Challenge) (e : ℚ), e ≤ 0 →
        close_trade t c e = .error "Invalid exit price") ∧
    (∀ (t : Trade) (c : Challenge) (e : ℚ), 0 < e → t.status ≠ "open" →
        close_trade t c e = .error "Trade is already closed") ∧
    (∀ (t : Trade) (c : Challenge) (e₁ e₂ : ℚ) (cfg : TierPolicy),
        t.status = "open" → 0 < e₁ → 0 < e₂ → lookupTier c.tier = some cfg →
        (closeTwice t c e₁ e₂).2 = some "Trade is already closed" ∧
        (closeTwice t c e₁ e₂).1 = (closeTradeRun t c e₁).1) := by
  refine ⟨close_trade_invalid_price, close_trade_already_closed, ?_⟩
  intro t c e₁ e₂ cfg ht he₁ he₂ hcfg
  rw [closeTwice_spec t c e₁ e₂ cfg ht he₁ he₂ hcfg,
    closeTradeRun_eq ht he₁ hcfg]
  exact ⟨rfl, rfl⟩

/-- Witness for C8 at concrete inputs: exit price 0 is rejected, an already
settled trade is rejected, and closing `openBuyTrade` at 110 then 105 keeps
the state of the first close. -/
theorem close_trade_errors_witness :
    close_trade openBuyTrade chStarter 0 = .error "Invalid exit price" ∧
    close_trade (settleTrade openBuyTrade 110) chStarter 105 =
      .error "Trade is already closed" ∧
    ((closeTwice openBuyTrade chStarter 110 105).2 =
        some "Trade is already closed" ∧
      (closeTwice openBuyTrade chStarter 110 105).1 =
        (closeTradeRun openBuyTrade chStarter 110).1) :=
  ⟨close_trade_errors.1 openBuyTrade chStarter 0 (by decide),
   close_trade_errors.2.1 (settleTrade openBuyTrade 110) chStarter 105
     (by decide) (by decide),
   close_trade_errors.2.2 openBuyTrade chStarter 110 105 starterConfig
     rfl (by decide) (by decide) (by decide)⟩

/-- Claim C9: `execute_trade` rejections, in source order — an unknown side is
rejected; a valid side with non-positive quantity or price is rejected; a
valid request on a non-active challenge is rejected; and a valid request whose
value `quantity * entry_price` strictly exceeds the current balance yields the
insufficient-balance error.  In this pure embedding each error result is the
endpoint's 400 response after rollback: no trade record exists and the
challenge argument is untouched. -/
theorem execute_trade_rejections :
    (∀ (c : Challenge) (sym tt : String) (q ep : ℚ),
        (lowerString tt = "buy" ∨ lowerString tt = "sell") → 0 < q → 0 < ep →
        c.status = "active" → c.current_balance < q * ep →
        execute_trade c sym tt q ep = .error "Insufficient balance") ∧
    (∀ (c : Challenge) (sym tt : String) (q ep : ℚ),
        (lowerString tt = "buy" ∨ lowerString tt = "sell") → 0 < q → 0 < ep →
        c.status ≠ "active" →
        execute_trade c sym tt q ep = .error "Challenge is not active") ∧
    (∀ (c : Challenge) (sym tt : String) (q ep : ℚ),
        lowerString tt ≠ "buy" → lowerString tt ≠ "sell" →
        execute_trade c sym tt q ep = .error "Trade type must be buy or sell") ∧
    (∀ (c : Challenge) (sym tt : String) (q ep : ℚ),
        (lowerString tt = "buy" ∨ lowerString tt = "sell") →
        (q ≤ 0 ∨ ep ≤ 0) →
        execute_trade c sym tt q ep = .error "Invalid quantity or price") := by
  refine ⟨?_, ?_, ?_, ?_⟩
  · intro c sym tt q ep hside hq hep hact hbal
    unfold execute_trade
    rw [if_neg (by rcases hside with h | h <;> simp [h]),
      if_neg (by rw [not_or]; exact ⟨not_le.mpr hq, not_le.mpr hep⟩),
      if_neg (by simp [hact]), if_pos hbal]
  · intro c sym tt q ep hside hq hep hact
    unfold execute_trade
    rw [if_neg (by rcases hside with h | h <;> simp [h]),
      if_neg (by rw [not_or]; exact ⟨not_le.mpr hq, not_le.mpr hep⟩),
      if_pos hact]
  · intro c sym tt q ep hb hs
    unfold execute_trade
    rw [if_pos ⟨hb, hs⟩]
  · intro c sym tt q ep hside hqe
    unfold execute_trade
    rw [if_neg (by rcases hside with h | h <;> simp [h]), if_pos hqe]

/-- Witness for C9 at concrete inputs on the starter challenge. -/
theorem execute_trade_rejections_witness :
    execute_trade chStarter "AAPL" "buy" 10 2000 = .error "Insufficient balance" ∧
    execute_trade chFailedStarter "AAPL" "buy" 1 100 =
      .error "Challenge is not active" ∧
    execute_trade chStarter "AAPL" "hold" 1 100 =
      .error "Trade type must be buy or sell" ∧
    execute_trade chStarter "AAPL" "sell" 0 100 =
      .error "Invalid quantity or price" :=
  ⟨execute_trade_rejections.1 chStarter "AAPL" "buy" 10 2000
      (Or.inl (by decide)) (by decide) (by decide) rfl (by norm_num [chStarter]),
   execute_trade_rejections.2.1 chFailedStarter "AAPL" "buy" 1 100
      (Or.inl (by decide)) (by decide) (by decide) (by decide),
   execute_trade_rejections.2.2.1 chStarter "AAPL" "hold" 1 100
      (by decide) (by decide),
   execute_trade_rejections.2.2.2 chStarter "AAPL" "sell" 0 100
      (Or.inr (by decide)) (Or.inl (by decide))⟩

/-- Claim C10: the profit-target step writes only `status`, never
`fail_reason` — the recorded reason is independent of the profit target, and
in a settlement where the daily-loss check set `"failed"` with its reason,
the total-loss check did not fire, and the profit target is met, the challenge
ends with status `"passed"` while still carrying the daily-loss fail reason. -/
theorem profit_check_frame (c : Challenge) (pnl : ℚ) (cfg : TierPolicy) :
    (∀ p : ℚ, (evaluate c pnl { cfg with profit_target_percent := p }).fail_reason
        = (evaluate c pnl cfg).fail_reason) ∧
    (c.daily_start_balance - (c.current_balance + pnl) ≥
        c.daily_start_balance * (cfg.max_daily_loss_percent / 100) →
      ¬ (c.initial_balance - (c.current_balance + pnl) ≥
        c.initial_balance * (cfg.max_total_loss_percent / 100)) →
      (c.current_balance + pnl - c.initial_balance) / c.initial_balance * 100 ≥
        cfg.profit_target_percent →
      (evaluate c pnl cfg).status = "passed" ∧
        (evaluate c pnl cfg).fail_reason =
          some (dailyLossReason cfg.max_daily_loss_percent)) := by
  constructor
  · intro p
    rfl
  · intro hdaily htotal hpt
    constructor
    · rw [evaluate_status, if_pos hpt]
    · rw [evaluate_fail_reason, if_neg htotal, if_pos hdaily]

/-- Witness for C10: on `chHighDayStart` (day start 20000, balance 11000) a
+1000 settlement lands at 12000 — the daily-loss check fires (drawdown 8000 ≥
1000) and sets the reason, the total-loss check does not (loss -2000 < 1000),
and the 20% profit then flips the status to `"passed"`, keeping the daily-loss
reason. -/
theorem profit_check_frame_witness :
    (evaluate chHighDayStart 1000 starterConfig).status = "passed" ∧
      (evaluate chHighDayStart 1000 starterConfig).fail_reason =
        some (dailyLossReason starterConfig.max_daily_loss_percent) :=
  (profit_check_frame chHighDayStart 1000 starterConfig).2
    (by norm_num [chHighDayStart, chStarter, starterConfig])
    (by norm_num [chHighDayStart, chStarter, starterConfig])
    (by norm_num [chHighDayStart, chStarter, starterConfig])
